import Mathlib

set_option autoImplicit false

/-!
Shallow embedding of `src/api-stashing-bqgcs.py`: a Cloud Function that
fetches one joke from an HTTP API, stashes the accumulated responses as a
JSON blob in Cloud Storage, appends them to a BigQuery table, and emits
structured JSON logs.

Modelling conventions:
* Python JSON-ish runtime values are `PyVal`; a value that is not
  JSON-serializable (for example a `LoadJob` result object) is
  `PyVal.obj r` where `r` is its `str()` rendering.
* `json.dumps(msg, default=d)` is `json_dumps d msg`, returning
  `Except String String` (`Except.error` models a raised `TypeError`).
* External effects (the prepared HTTP request being sent, a blob upload, a
  BigQuery load, a log record reaching the logging sink) are accumulated in
  an effect trace `List Effect`; nondeterministic inputs from the outside
  world (HTTP status and body, clock readings, the generated uuid, the
  blob self-link, the load-job result) are passed in explicitly as `World`
  records.
* Module-level configuration read from `os.environ` is the `Env` record,
  passed explicitly to the functions whose Python bodies can see the
  module globals.
* Clock readings are integers: `time.time_ns()` values are nanoseconds and
  the instants fed to `datetime.now` are epoch microseconds (the resolution
  of Python `datetime`).
-/

/-- A Python runtime value as seen by `json.dumps`.  `obj r` is any value
outside the JSON-serializable types, carrying its `str()` rendering `r`. -/
inductive PyVal : Type where
  | null : PyVal
  | bool : Bool → PyVal
  | int : Int → PyVal
  | str : String → PyVal
  | obj : String → PyVal
  | list : List PyVal → PyVal
  | dict : List (String × PyVal) → PyVal

/-- JSON string escaping of one character, as `json.dumps` performs on the
common cases (quote, backslash, newline, tab, carriage return). -/
def jsonEscapeChar (c : Char) : String :=
  if c = '\\' then "\\\\"
  else if c = '\"' then "\\\""
  else if c = '\n' then "\\n"
  else if c = '\t' then "\\t"
  else if c = '\r' then "\\r"
  else String.singleton c

/-- JSON string escaping of a character sequence. -/
def jsonEscapeList : List Char → String
  | [] => ""
  | c :: cs => jsonEscapeChar c ++ jsonEscapeList cs

/-- JSON string escaping. -/
def jsonEscape (s : String) : String :=
  jsonEscapeList s.data

/-- A JSON string literal: escaped and double-quoted. -/
def jsonQuote (s : String) : String :=
  "\"" ++ jsonEscape s ++ "\""

/-- The `default=` argument of `json.dumps` as used around this script:
`dstr` is the builtin `str` (render the object through its `str()` form),
`dconst s` is some other callable returning the string `s`, and `dnone`
is `default=None`, i.e. no fallback, so non-serializable values raise. -/
inductive JsonDefault : Type where
  | dstr : JsonDefault
  | dconst : String → JsonDefault
  | dnone : JsonDefault

mutual

/-- `json.dumps(v, default=d)` with the default separators `", "` and
`": "`.  `Except.error` models the `TypeError` raised on a
non-serializable value when no usable `default` is supplied. -/
def json_dumps : JsonDefault → PyVal → Except String String
  | _, PyVal.null => Except.ok "null"
  | _, PyVal.bool true => Except.ok "true"
  | _, PyVal.bool false => Except.ok "false"
  | _, PyVal.int n => Except.ok (toString n)
  | _, PyVal.str s => Except.ok (jsonQuote s)
  | d, PyVal.obj r =>
      match d with
      | JsonDefault.dstr => Except.ok (jsonQuote r)
      | JsonDefault.dconst s => Except.ok (jsonQuote s)
      | JsonDefault.dnone => Except.error "TypeError: object is not JSON serializable"
  | d, PyVal.list xs =>
      match json_dumps_elems d xs with
      | Except.ok s => Except.ok ("[" ++ s ++ "]")
      | Except.error e => Except.error e
  | d, PyVal.dict fs =>
      match json_dumps_fields d fs with
      | Except.ok s => Except.ok ("\x7b" ++ s ++ "\x7d")
      | Except.error e => Except.error e

/-- Serialization of the element list of a JSON array. -/
def json_dumps_elems : JsonDefault → List PyVal → Except String String
  | _, [] => Except.ok ""
  | d, [x] => json_dumps d x
  | d, x :: y :: xs =>
      match json_dumps d x, json_dumps_elems d (y :: xs) with
      | Except.ok s1, Except.ok s2 => Except.ok (s1 ++ ", " ++ s2)
      | Except.error e, _ => Except.error e
      | _, Except.error e => Except.error e

/-- Serialization of the key/value pairs of a JSON object. -/
def json_dumps_fields : JsonDefault → List (String × PyVal) → Except String String
  | _, [] => Except.ok ""
  | d, [(k, v)] =>
      match json_dumps d v with
      | Except.ok s => Except.ok (jsonQuote k ++ ": " ++ s)
      | Except.error e => Except.error e
  | d, (k, v) :: p :: fs =>
      match json_dumps d v, json_dumps_fields d (p :: fs) with
      | Except.ok s1, Except.ok s2 => Except.ok (jsonQuote k ++ ": " ++ s1 ++ ", " ++ s2)
      | Except.error e, _ => Except.error e
      | _, Except.error e => Except.error e

end

/-- The string produced by `json.dumps(v, default=str)`.  With the `str`
fallback in place serialization always succeeds (`json_dumps_dstr_eq`
below), so the error branch here is dead. -/
def json_dumps_str (v : PyVal) : String :=
  match json_dumps JsonDefault.dstr v with
  | Except.ok s => s
  | Except.error e => e

/-- A Python exception. -/
inductive PyErr : Type where
  | httpError : String → PyErr
  | attributeError : String → PyErr
  | typeError : String → PyErr

/-- A prepared HTTP request: method, url and the headers this code set on
the `requests.Session` (`session.prepare_request` merges them in). -/
structure PreparedRequest : Type where
  method : String
  url : String
  headers : List (String × String)

/-- A Cloud Storage blob handle as produced by `store_object`.  `content`
is the JSON document uploaded via
`blob.upload_from_string(json.dumps(self.responses, indent=4))`, modelled
at the level of its parsed JSON value (the `indent=4` pretty-printing is
whitespace only, so the parsed value of the uploaded text is exactly the
responses array). -/
structure Blob : Type where
  bucket : Option String
  name : String
  content : PyVal
  self_link : String

/-- The `bigquery.LoadJobConfig` constructed by `store_table`. -/
structure LoadJobConfig : Type where
  source_format : String
  autodetect : Bool
  write_disposition : String
  create_disposition : String
  schema_update_options : String

/-- What `bq.load_table_from_json(self.responses, table_id,
job_config=..., location="us")` submits to BigQuery. -/
structure LoadRequest : Type where
  rows : List PyVal
  table_id : String
  job_config : LoadJobConfig
  location : String

/-- The terminal BigQuery load-job result object returned by
`job.result()`; `vars` is its `vars(...)` attribute dictionary, which is
all this script inspects of it. -/
structure JobResult : Type where
  vars : List (String × PyVal)

/-- An observable external effect of one invocation, in order of
occurrence: an HTTP request sent, a record handed to the logging sink, a
blob uploaded to Cloud Storage, a load submitted to BigQuery. -/
inductive Effect : Type where
  | requested : PreparedRequest → Effect
  | logged : Int → String → Effect
  | blobUploaded : Blob → Effect
  | tableLoaded : LoadRequest → Effect

/-- `logging.log(level, msg)`: the underlying leveled logging sink, which
this model records as an effect. -/
def logging_log (level : Int) (msg : String) (tr : List Effect) : List Effect :=
  tr ++ [Effect.logged level msg]

/-- `JSONLogger.log(self, level, msg, *args, default=str, **kwargs)`:
converts the message to JSON first, then forwards level and JSON string to
`logging.log`.  `kw_default` models an explicit `default=` keyword given
by the caller (`none` when the caller leaves the parameter at its `str`
default).  `Except.error` models an escaping exception. -/
def JSONLogger.log (level : Int) (msg : PyVal) (kw_default : Option JsonDefault)
    (tr : List Effect) : Except PyErr (List Effect) :=
  match json_dumps (kw_default.getD JsonDefault.dstr) msg with
  | Except.ok s => Except.ok (logging_log level s tr)
  | Except.error e => Except.error (PyErr.typeError e)

/-- `JSONLogger.debug(self, msg, *args, **kwargs)`: fixes level 10 and
passes `default=str` to `log`.  Because `debug` (unlike the other four
convenience methods) has no `default` parameter of its own, an explicit
`default=` keyword from the caller lands in `**kwargs` and the inner
`self.log(level, msg, *args, default=str, **kwargs)` call raises a
duplicate-keyword `TypeError`. -/
def JSONLogger.debug (msg : PyVal) (kw_default : Option JsonDefault)
    (tr : List Effect) : Except PyErr (List Effect) :=
  match kw_default with
  | none => JSONLogger.log 10 msg (some JsonDefault.dstr) tr
  | some _ => Except.error
      (PyErr.typeError "log got multiple values for keyword argument default")

/-- `JSONLogger.info(self, msg, *args, default=str, **kwargs)`: fixes
level 20 and always forwards `default=str`, so an explicit `default=`
keyword from the caller is accepted but ignored. -/
def JSONLogger.info (msg : PyVal) (kw_default : Option JsonDefault)
    (tr : List Effect) : Except PyErr (List Effect) :=
  JSONLogger.log 20 msg (some JsonDefault.dstr) tr

/-- `JSONLogger.warning`: fixes level 30, otherwise as `info`. -/
def JSONLogger.warning (msg : PyVal) (kw_default : Option JsonDefault)
    (tr : List Effect) : Except PyErr (List Effect) :=
  JSONLogger.log 30 msg (some JsonDefault.dstr) tr

/-- `JSONLogger.error`: fixes level 40, otherwise as `info`. -/
def JSONLogger.error (msg : PyVal) (kw_default : Option JsonDefault)
    (tr : List Effect) : Except PyErr (List Effect) :=
  JSONLogger.log 40 msg (some JsonDefault.dstr) tr

/-- `JSONLogger.critical`: fixes level 50, otherwise as `info`. -/
def JSONLogger.critical (msg : PyVal) (kw_default : Option JsonDefault)
    (tr : List Effect) : Except PyErr (List Effect) :=
  JSONLogger.log 50 msg (some JsonDefault.dstr) tr

/-- The effect of `self.logger.critical(log)` as the script calls it (no
extra keyword arguments): one level-50 record with the JSON rendering of
the message.  `critical_noraise_eq` below proves this equal to
`JSONLogger.critical`, which never raises on such a call. -/
def JSONLogger.critical_run (msg : PyVal) (tr : List Effect) : List Effect :=
  logging_log 50 (json_dumps_str msg) tr

/-- The effect of `self.logger.info(log)` as the script calls it (no extra
keyword arguments): one level-20 record with the JSON rendering of the
message.  `info_noraise_eq` below proves this equal to `JSONLogger.info`. -/
def JSONLogger.info_run (msg : PyVal) (tr : List Effect) : List Effect :=
  logging_log 20 (json_dumps_str msg) tr

/-- The module-level configuration read from `os.environ` at import time:
`os.environ.get` returns `None` (`none`) for an unset variable. -/
structure Env : Type where
  PROJECT_ID : Option String
  BUCKET : Option String
  DATASET : Option String
  TABLE : Option String
  AUTH_TOKEN : Option String

/-- Python truthiness of an optional string: `None` and `""` are falsy. -/
def pyFalsy : Option String → Bool
  | none => true
  | some s => s.isEmpty

/-- Rendering of an optional string inside a Python f-string: `None`
prints as `"None"`. -/
def pyFStr : Option String → String
  | none => "None"
  | some s => s

/-- A fixed-offset `datetime.timezone`, by its offset in minutes. -/
structure Tz : Type where
  offset_minutes : Int

/-- Zero-pad a natural number to `w` digits. -/
def padNat (w : Nat) (n : Nat) : String :=
  let s := toString n
  String.mk (List.replicate (w - s.length) '0') ++ s

/-- Civil date from days since 1970-01-01 (proleptic Gregorian). -/
def civil_from_days (z0 : Int) : Int × Int × Int :=
  let z := z0 + 719468
  let era := z.fdiv 146097
  let doe := z - era * 146097
  let yoe := (doe - doe / 1460 + doe / 36524 - doe / 146096) / 365
  let y := yoe + era * 400
  let doy := doe - (365 * yoe + yoe / 4 - yoe / 100)
  let mp := (5 * doy + 2) / 153
  let d := doy - (153 * mp + 2) / 5 + 1
  let m := mp + (if mp < 10 then 3 else -9)
  (y + (if m ≤ 2 then 1 else 0), m, d)

/-- The `±HH:MM` UTC-offset tail that `datetime.isoformat()` renders for a
fixed-offset timezone of `m` minutes. -/
def utc_offset_tail (m : Int) : String :=
  let sign := if m < 0 then "-" else "+"
  let a := m.natAbs
  sign ++ padNat 2 (a / 60) ++ ":" ++ padNat 2 (a % 60)

/-- `datetime.now(tz).isoformat()` for a fixed-offset timezone: the
instant `epoch_us` (microseconds since the Unix epoch) converted to the
offset's local calendar time, rendered `YYYY-MM-DDTHH:MM:SS[.ffffff]±HH:MM`
(the fractional part is omitted when the microsecond field is zero, as
Python does). -/
def isoformat (epoch_us : Int) (offset_min : Int) : String :=
  let local_us := epoch_us + offset_min * 60000000
  let days := local_us.fdiv 86400000000
  let rem := (local_us.emod 86400000000).toNat
  let ymd := civil_from_days days
  let h := rem / 3600000000
  let mi := rem / 60000000 % 60
  let s := rem / 1000000 % 60
  let micro := rem % 1000000
  padNat 4 ymd.1.toNat ++ "-" ++ padNat 2 ymd.2.1.toNat ++ "-" ++ padNat 2 ymd.2.2.toNat
    ++ "T" ++ padNat 2 h ++ ":" ++ padNat 2 mi ++ ":" ++ padNat 2 s
    ++ (if micro = 0 then "" else "." ++ padNat 6 micro)
    ++ utc_offset_tail offset_min

/-- The state of a `DadJoke` instance: the fixed url, the timezone given
to `__init__`, the header dict this code builds, the session headers after
`session.headers.update(**self.headers)`, and the response accumulator. -/
structure DadJoke : Type where
  url : String
  tz : Tz
  headers : List (String × String)
  session_headers : List (String × String)
  responses : List PyVal

/-- The default of `__init__`'s `tz` parameter:
`timezone(-timedelta(hours=5))`, i.e. a fixed UTC-5 offset. -/
def DadJoke.default_tz : Tz := Tz.mk (-5 * 60)

/-- `DadJoke.__init__(self, tz=timezone(-timedelta(hours=5)))`: the header
dict sets only `accept: application/json` (the auth token from the
environment is never added), the session headers are updated from it, and
the response accumulator starts empty. -/
def DadJoke.init (tz : Tz) : DadJoke :=
  DadJoke.mk "https://icanhazdadjoke.com" tz
    [("accept", "application/json")]
    [("accept", "application/json")]
    []

/-- Replace the `responses` field (the only field the script mutates). -/
def DadJoke.with_responses (d : DadJoke) (rs : List PyVal) : DadJoke :=
  DadJoke.mk d.url d.tz d.headers d.session_headers rs

/-- The `timestamp` property: `datetime.now(tz=self.tz).isoformat()` at
the instant `now_us`. -/
def DadJoke.timestamp (d : DadJoke) (now_us : Int) : String :=
  isoformat now_us d.tz.offset_minutes

/-- `Request("GET", self.url)` put through
`self.session.prepare_request(req)`: a GET to the joke endpoint carrying
the session headers. -/
def DadJoke.prepare_get (d : DadJoke) : PreparedRequest :=
  PreparedRequest.mk "GET" d.url d.session_headers

/-- `dict.update({k: v})` on an insertion-ordered Python dict: an existing
key keeps its position and gets the new value, a fresh key is appended. -/
def dict_update (fs : List (String × PyVal)) (k : String) (v : PyVal) :
    List (String × PyVal) :=
  if fs.any (fun p => p.1 == k) then
    fs.map (fun p => if p.1 == k then (k, v) else p)
  else fs ++ [(k, v)]

/-- The external inputs consumed by one `get` call: the HTTP status code
and parsed JSON body of the response, the `time.time_ns()` reading used
for the `created` stamp, and the clock instant behind `self.timestamp` on
the failure path. -/
structure FetchWorld : Type where
  status_code : Int
  body : PyVal
  time_ns : Int
  now_us : Int

/-- `DadJoke.get(self)`: prepares and sends the GET request; on a non-200
status logs one critical record `{'apiCallStatus': ..., 'attemptedAt':
...}` and raises `HTTPError(f"CRITICAL: {res.status_code} - please review
and retry.")`; on a 200 response parses the body (a non-dict body would
make `data.update` raise `AttributeError`), stamps it with
`{"created": time.time_ns()}`, appends it to `self.responses` and returns
it.  Result: the returned value or raised exception, the post-state, and
the effect trace. -/
def DadJoke.get (env : Env) (w : FetchWorld) (d : DadJoke) (tr : List Effect) :
    Except PyErr PyVal × DadJoke × List Effect :=
  let req := DadJoke.prepare_get d
  let tr := tr ++ [Effect.requested req]
  if w.status_code ≠ 200 then
    let log := PyVal.dict
      [("apiCallStatus", PyVal.int w.status_code),
       ("attemptedAt", PyVal.str (DadJoke.timestamp d w.now_us))]
    let tr := JSONLogger.critical_run log tr
    (Except.error (PyErr.httpError
        ("CRITICAL: " ++ toString w.status_code ++ " - please review and retry.")),
      d, tr)
  else
    match w.body with
    | PyVal.dict fields =>
        let data := PyVal.dict (dict_update fields "created" (PyVal.int w.time_ns))
        (Except.ok data, DadJoke.with_responses d (d.responses ++ [data]), tr)
    | _ =>
        (Except.error (PyErr.attributeError "res.json() result has no update method"),
          d, tr)

/-- `DadJoke.store_object(self, bucket_name=None)`: a fresh
`f"{uuid4()}.json"` name, fallback to the module-level `BUCKET` when the
argument is falsy, and an upload of `json.dumps(self.responses, indent=4)`
to that blob.  `uuid` and `self_link` are external inputs (the generated
identifier and the storage service's self-link for the new blob). -/
def DadJoke.store_object (env : Env) (uuid : String) (self_link : String)
    (bucket_name : Option String) (d : DadJoke) (tr : List Effect) :
    Blob × DadJoke × List Effect :=
  let name := uuid ++ ".json"
  let bucket_name := if pyFalsy bucket_name then env.BUCKET else bucket_name
  let blob := Blob.mk bucket_name name (PyVal.list d.responses) self_link
  (blob, d, tr ++ [Effect.blobUploaded blob])

/-- `bigquery.job.SourceFormat.NEWLINE_DELIMITED_JSON`. -/
def SourceFormat.NEWLINE_DELIMITED_JSON : String := "NEWLINE_DELIMITED_JSON"

/-- `bigquery.job.WriteDisposition.WRITE_APPEND`. -/
def WriteDisposition.WRITE_APPEND : String := "WRITE_APPEND"

/-- `bigquery.job.WriteDisposition.WRITE_TRUNCATE` (overwrite). -/
def WriteDisposition.WRITE_TRUNCATE : String := "WRITE_TRUNCATE"

/-- `bigquery.job.WriteDisposition.WRITE_EMPTY` (fail unless empty). -/
def WriteDisposition.WRITE_EMPTY : String := "WRITE_EMPTY"

/-- `bigquery.job.CreateDisposition.CREATE_IF_NEEDED`. -/
def CreateDisposition.CREATE_IF_NEEDED : String := "CREATE_IF_NEEDED"

/-- `bigquery.job.CreateDisposition.CREATE_NEVER`. -/
def CreateDisposition.CREATE_NEVER : String := "CREATE_NEVER"

/-- `bigquery.job.SchemaUpdateOption.ALLOW_FIELD_ADDITION`. -/
def SchemaUpdateOption.ALLOW_FIELD_ADDITION : String := "ALLOW_FIELD_ADDITION"

/-- `bigquery.job.SchemaUpdateOption.ALLOW_FIELD_RELAXATION` (loosen the
mode/type of an existing field). -/
def SchemaUpdateOption.ALLOW_FIELD_RELAXATION : String := "ALLOW_FIELD_RELAXATION"

/-- `DadJoke.store_table(self, table_id=None)`: builds the
`LoadJobConfig`, falls back to `f"{PROJECT_ID}.{DATASET}.{TABLE}"` when
the argument is falsy, submits `self.responses` as a JSON load in
location `"us"`, and blocks on `job.result()` (the terminal result object
`bq_res` is an external input). -/
def DadJoke.store_table (env : Env) (bq_res : JobResult) (table_id : Option String)
    (d : DadJoke) (tr : List Effect) :
    LoadRequest × JobResult × DadJoke × List Effect :=
  let job_config := LoadJobConfig.mk
    SourceFormat.NEWLINE_DELIMITED_JSON
    true
    WriteDisposition.WRITE_APPEND
    CreateDisposition.CREATE_IF_NEEDED
    SchemaUpdateOption.ALLOW_FIELD_ADDITION
  let table_id :=
    if pyFalsy table_id then
      pyFStr env.PROJECT_ID ++ "." ++ pyFStr env.DATASET ++ "." ++ pyFStr env.TABLE
    else table_id.getD ""
  let req := LoadRequest.mk d.responses table_id job_config "us"
  (req, bq_res, d, tr ++ [Effect.tableLoaded req])

/-- The external inputs consumed by one `__call__`: the fetch inputs, the
two `time.time()` readings (modelled as integer tick counts, only their
difference is observable), the generated uuid, the blob self-link, the
terminal load-job result, and the clock instant behind the final
`self.timestamp`. -/
structure CallWorld : Type where
  fetch : FetchWorld
  time_begin : Int
  time_end : Int
  uuid : String
  self_link : String
  bq_res : JobResult
  now_us : Int

/-- `DadJoke.__call__(self, request=None)`: runs `get`, then
`store_object`, then `store_table`, then emits one informational summary
log; an exception from `get` propagates immediately and nothing downstream
runs. -/
def DadJoke.call (env : Env) (w : CallWorld) (d : DadJoke) (tr : List Effect) :
    Except PyErr Unit × DadJoke × List Effect :=
  match DadJoke.get env w.fetch d tr with
  | (Except.error e, d2, tr2) => (Except.error e, d2, tr2)
  | (Except.ok _data, d2, tr2) =>
    let bl := DadJoke.store_object env w.uuid w.self_link none d2 tr2
    let blob := bl.1
    let st := DadJoke.store_table env w.bq_res none bl.2.1 bl.2.2
    let bq_res := st.2.1
    let log := PyVal.dict
      [ ("executionTime", PyVal.int (w.time_end - w.time_begin)),
        ("attemptedAt", PyVal.str (DadJoke.timestamp st.2.2.1 w.now_us)),
        ("status", PyVal.str "COMPLETE"),
        ("gcsObject", PyVal.dict
          [ ("gcsUri", PyVal.str ("gs://" ++ pyFStr env.BUCKET ++ "/" ++ blob.name)),
            ("gcsSelfLink", PyVal.str blob.self_link) ]),
        ("bigQueryResult", PyVal.str (json_dumps_str (PyVal.dict bq_res.vars))) ]
    let tr3 := JSONLogger.info_run log st.2.2.2
    (Except.ok (), st.2.2.1, tr3)

/-- `entrypoint(request=None)`: constructs `DadJoke()` with the default
timezone and invokes it once, ignoring the request payload. -/
def entrypoint (env : Env) (w : CallWorld) :
    Except PyErr Unit × DadJoke × List Effect :=
  DadJoke.call env w (DadJoke.init DadJoke.default_tz) []

/-- The stamped record `get` builds from a 200-status dict body:
the body with `created` set to the `time.time_ns()` reading. -/
def stamped (fields : List (String × PyVal)) (t : Int) : PyVal :=
  PyVal.dict (dict_update fields "created" (PyVal.int t))

/-- A concrete configuration used to instantiate witnesses. -/
def sample_env : Env :=
  Env.mk (some "proj") (some "bkt") (some "ds") (some "tbl") (some "tok")

/-- A concrete freshly-initialized instance used in witnesses. -/
def sample_joker : DadJoke := DadJoke.init DadJoke.default_tz

/-- A concrete terminal load-job result used in witnesses; its attribute
dict holds a non-JSON-serializable job object. -/
def sample_bq : JobResult :=
  JobResult.mk [("state", PyVal.str "DONE"), ("job", PyVal.obj "LoadJob object")]

/-- A concrete 200-status JSON body used in witnesses. -/
def sample_fields : List (String × PyVal) :=
  [("id", PyVal.str "abc"), ("joke", PyVal.str "why did the chicken")]

/-- A concrete failing fetch (HTTP 500) used in witnesses. -/
def sample_fail_call : CallWorld :=
  CallWorld.mk (FetchWorld.mk 500 PyVal.null 0 0) 10 20 "uid" "link" sample_bq 30

/-- A concrete successful fetch used in witnesses. -/
def sample_ok_call : CallWorld :=
  CallWorld.mk (FetchWorld.mk 200 (PyVal.dict sample_fields) 111 222)
    10 20 "uid" "link" sample_bq 333

mutual

/-- With `default=str`, `json.dumps` succeeds on every value. -/
theorem json_dumps_dstr_ok : ∀ v : PyVal, ∃ s, json_dumps JsonDefault.dstr v = Except.ok s
  | PyVal.null => ⟨_, rfl⟩
  | PyVal.bool true => ⟨_, rfl⟩
  | PyVal.bool false => ⟨_, rfl⟩
  | PyVal.int _ => ⟨_, rfl⟩
  | PyVal.str _ => ⟨_, rfl⟩
  | PyVal.obj _ => ⟨_, rfl⟩
  | PyVal.list xs => by
      obtain ⟨s, hs⟩ := json_dumps_elems_dstr_ok xs
      exact ⟨"[" ++ s ++ "]", by simp only [json_dumps, hs]⟩
  | PyVal.dict fs => by
      obtain ⟨s, hs⟩ := json_dumps_fields_dstr_ok fs
      exact ⟨"\x7b" ++ s ++ "\x7d", by simp only [json_dumps, hs]⟩

/-- With `default=str`, array-element serialization succeeds. -/
theorem json_dumps_elems_dstr_ok :
    ∀ xs : List PyVal, ∃ s, json_dumps_elems JsonDefault.dstr xs = Except.ok s
  | [] => ⟨_, rfl⟩
  | [x] => by
      obtain ⟨s, hs⟩ := json_dumps_dstr_ok x
      exact ⟨s, by simp only [json_dumps_elems, hs]⟩
  | x :: y :: xs => by
      obtain ⟨s1, h1⟩ := json_dumps_dstr_ok x
      obtain ⟨s2, h2⟩ := json_dumps_elems_dstr_ok (y :: xs)
      exact ⟨s1 ++ ", " ++ s2, by simp only [json_dumps_elems, h1, h2]⟩

/-- With `default=str`, object-field serialization succeeds. -/
theorem json_dumps_fields_dstr_ok :
    ∀ fs : List (String × PyVal), ∃ s, json_dumps_fields JsonDefault.dstr fs = Except.ok s
  | [] => ⟨_, rfl⟩
  | [(k, v)] => by
      obtain ⟨s, hs⟩ := json_dumps_dstr_ok v
      exact ⟨jsonQuote k ++ ": " ++ s, by simp only [json_dumps_fields, hs]⟩
  | (k, v) :: p :: fs => by
      obtain ⟨s1, h1⟩ := json_dumps_dstr_ok v
      obtain ⟨s2, h2⟩ := json_dumps_fields_dstr_ok (p :: fs)
      exact ⟨jsonQuote k ++ ": " ++ s1 ++ ", " ++ s2, by simp only [json_dumps_fields, h1, h2]⟩

end

/-- `json.dumps(v, default=str)` always returns, and returns
`json_dumps_str v`. -/
theorem json_dumps_dstr_eq (v : PyVal) :
    json_dumps JsonDefault.dstr v = Except.ok (json_dumps_str v) := by
  obtain ⟨s, hs⟩ := json_dumps_dstr_ok v
  simp [json_dumps_str, hs]

/-- `self.logger.critical(log)` as the script calls it never raises and
appends exactly the level-50 record of `critical_run`. -/
theorem critical_noraise_eq (msg : PyVal) (tr : List Effect) :
    JSONLogger.critical msg none tr = Except.ok (JSONLogger.critical_run msg tr) := by
  simp [JSONLogger.critical, JSONLogger.log, JSONLogger.critical_run,
    json_dumps_dstr_eq msg]

/-- `self.logger.info(log)` as the script calls it never raises and
appends exactly the level-20 record of `info_run`. -/
theorem info_noraise_eq (msg : PyVal) (tr : List Effect) :
    JSONLogger.info msg none tr = Except.ok (JSONLogger.info_run msg tr) := by
  simp [JSONLogger.info, JSONLogger.log, JSONLogger.info_run,
    json_dumps_dstr_eq msg]

/-- C1: for every fetch whose HTTP status is not 200, the `get` step emits
exactly one critical (level-50) log entry containing the returned status
code and a timestamp rendered in the timezone supplied at construction
(whose default is the fixed UTC-5 offset), then raises an `HTTPError`
carrying the status code; since `__call__` runs `get` before
`store_object` and `store_table`, the invocation adds no blob upload and
no BigQuery load to the effect trace. -/
theorem call_non200_short_circuit (env : Env) (w : CallWorld) (tz : Tz) (tr : List Effect)
    (h : w.fetch.status_code ≠ 200) :
    (DadJoke.call env w (DadJoke.init tz) tr =
      (Except.error (PyErr.httpError
          ("CRITICAL: " ++ toString w.fetch.status_code ++ " - please review and retry.")),
        DadJoke.init tz,
        tr ++ [Effect.requested (DadJoke.prepare_get (DadJoke.init tz)),
               Effect.logged 50 (json_dumps_str (PyVal.dict
                 [("apiCallStatus", PyVal.int w.fetch.status_code),
                  ("attemptedAt", PyVal.str (isoformat w.fetch.now_us tz.offset_minutes))]))]))
    ∧ DadJoke.default_tz = Tz.mk (-5 * 60)
    ∧ (∀ b2 : Blob,
        Effect.blobUploaded b2 ∈ (DadJoke.call env w (DadJoke.init tz) tr).2.2
          → Effect.blobUploaded b2 ∈ tr)
    ∧ (∀ r2 : LoadRequest,
        Effect.tableLoaded r2 ∈ (DadJoke.call env w (DadJoke.init tz) tr).2.2
          → Effect.tableLoaded r2 ∈ tr) := by
  have hget : DadJoke.get env w.fetch (DadJoke.init tz) tr =
      (Except.error (PyErr.httpError
          ("CRITICAL: " ++ toString w.fetch.status_code ++ " - please review and retry.")),
        DadJoke.init tz,
        tr ++ [Effect.requested (DadJoke.prepare_get (DadJoke.init tz)),
               Effect.logged 50 (json_dumps_str (PyVal.dict
                 [("apiCallStatus", PyVal.int w.fetch.status_code),
                  ("attemptedAt", PyVal.str (isoformat w.fetch.now_us tz.offset_minutes))]))]) := by
    simp [DadJoke.get, h, JSONLogger.critical_run, logging_log, DadJoke.timestamp, DadJoke.init]
  have hcall : DadJoke.call env w (DadJoke.init tz) tr =
      (Except.error (PyErr.httpError
          ("CRITICAL: " ++ toString w.fetch.status_code ++ " - please review and retry.")),
        DadJoke.init tz,
        tr ++ [Effect.requested (DadJoke.prepare_get (DadJoke.init tz)),
               Effect.logged 50 (json_dumps_str (PyVal.dict
                 [("apiCallStatus", PyVal.int w.fetch.status_code),
                  ("attemptedAt", PyVal.str (isoformat w.fetch.now_us tz.offset_minutes))]))]) := by
    rw [DadJoke.call, hget]
  refine ⟨hcall, rfl, ?_, ?_⟩
  · intro b2 hb
    rw [hcall] at hb
    simp [List.mem_append] at hb
    exact hb
  · intro r2 hr
    rw [hcall] at hr
    simp [List.mem_append] at hr
    exact hr

/-- Witness for C1 at a concrete HTTP-500 invocation. -/
theorem call_non200_short_circuit_witness :
    (DadJoke.call sample_env sample_fail_call (DadJoke.init DadJoke.default_tz) [] =
      (Except.error (PyErr.httpError
          ("CRITICAL: " ++ toString sample_fail_call.fetch.status_code
            ++ " - please review and retry.")),
        DadJoke.init DadJoke.default_tz,
        [] ++ [Effect.requested (DadJoke.prepare_get (DadJoke.init DadJoke.default_tz)),
               Effect.logged 50 (json_dumps_str (PyVal.dict
                 [("apiCallStatus", PyVal.int sample_fail_call.fetch.status_code),
                  ("attemptedAt", PyVal.str (isoformat sample_fail_call.fetch.now_us
                    DadJoke.default_tz.offset_minutes))]))]))
    ∧ DadJoke.default_tz = Tz.mk (-5 * 60)
    ∧ (∀ b2 : Blob,
        Effect.blobUploaded b2
            ∈ (DadJoke.call sample_env sample_fail_call (DadJoke.init DadJoke.default_tz) []).2.2
          → Effect.blobUploaded b2 ∈ ([] : List Effect))
    ∧ (∀ r2 : LoadRequest,
        Effect.tableLoaded r2
            ∈ (DadJoke.call sample_env sample_fail_call (DadJoke.init DadJoke.default_tz) []).2.2
          → Effect.tableLoaded r2 ∈ ([] : List Effect)) :=
  call_non200_short_circuit sample_env sample_fail_call DadJoke.default_tz [] (by decide)

/-- C2: for every fetch returning status 200 with a JSON object body,
`get` returns the body updated with a `created` field holding the
`time.time_ns()` reading, the accumulator (starting empty in a fresh
instance) then holds exactly that one record, and `store_object` uploads a
blob whose JSON content is the array containing exactly that record. -/
theorem get_success_one_record (env : Env) (tz : Tz) (w : FetchWorld)
    (fields : List (String × PyVal)) (tr tr2 : List Effect) (uuid self_link : String)
    (h200 : w.status_code = 200) (hbody : w.body = PyVal.dict fields) :
    (DadJoke.get env w (DadJoke.init tz) tr =
      (Except.ok (stamped fields w.time_ns),
        DadJoke.with_responses (DadJoke.init tz) [stamped fields w.time_ns],
        tr ++ [Effect.requested (DadJoke.prepare_get (DadJoke.init tz))]))
    ∧ (DadJoke.store_object env uuid self_link none
          (DadJoke.with_responses (DadJoke.init tz) [stamped fields w.time_ns]) tr2 =
        (Blob.mk env.BUCKET (uuid ++ ".json")
            (PyVal.list [stamped fields w.time_ns]) self_link,
          DadJoke.with_responses (DadJoke.init tz) [stamped fields w.time_ns],
          tr2 ++ [Effect.blobUploaded (Blob.mk env.BUCKET (uuid ++ ".json")
            (PyVal.list [stamped fields w.time_ns]) self_link)])) := by
  constructor
  · simp [DadJoke.get, h200, hbody, stamped, DadJoke.init, DadJoke.with_responses]
  · rfl

/-- Witness for C2 at a concrete 200-status fetch of
`{"id": "abc", "joke": "why did the chicken"}`. -/
theorem get_success_one_record_witness :
    (DadJoke.get sample_env sample_ok_call.fetch (DadJoke.init DadJoke.default_tz) [] =
      (Except.ok (stamped sample_fields sample_ok_call.fetch.time_ns),
        DadJoke.with_responses (DadJoke.init DadJoke.default_tz)
          [stamped sample_fields sample_ok_call.fetch.time_ns],
        [] ++ [Effect.requested (DadJoke.prepare_get (DadJoke.init DadJoke.default_tz))]))
    ∧ (DadJoke.store_object sample_env "uid" "link" none
          (DadJoke.with_responses (DadJoke.init DadJoke.default_tz)
            [stamped sample_fields sample_ok_call.fetch.time_ns]) [] =
        (Blob.mk sample_env.BUCKET ("uid" ++ ".json")
            (PyVal.list [stamped sample_fields sample_ok_call.fetch.time_ns]) "link",
          DadJoke.with_responses (DadJoke.init DadJoke.default_tz)
            [stamped sample_fields sample_ok_call.fetch.time_ns],
          [] ++ [Effect.blobUploaded (Blob.mk sample_env.BUCKET ("uid" ++ ".json")
            (PyVal.list [stamped sample_fields sample_ok_call.fetch.time_ns]) "link")])) :=
  get_success_one_record sample_env DadJoke.default_tz sample_ok_call.fetch
    sample_fields [] [] "uid" "link" (by decide) rfl

/-- C3: every invocation of `store_table` constructs a load-job
configuration with newline-delimited-JSON source format, schema
auto-detection, append write disposition (never truncate/overwrite, never
write-empty), create-if-needed disposition, and schema update options
allowing field addition only (in particular not field relaxation). -/
theorem store_table_load_config (env : Env) (bq : JobResult) (targ : Option String)
    (d : DadJoke) (tr : List Effect) :
    ((DadJoke.store_table env bq targ d tr).1.job_config.source_format
        = SourceFormat.NEWLINE_DELIMITED_JSON)
    ∧ ((DadJoke.store_table env bq targ d tr).1.job_config.autodetect = true)
    ∧ ((DadJoke.store_table env bq targ d tr).1.job_config.write_disposition
        = WriteDisposition.WRITE_APPEND)
    ∧ ((DadJoke.store_table env bq targ d tr).1.job_config.write_disposition
        ≠ WriteDisposition.WRITE_TRUNCATE)
    ∧ ((DadJoke.store_table env bq targ d tr).1.job_config.write_disposition
        ≠ WriteDisposition.WRITE_EMPTY)
    ∧ ((DadJoke.store_table env bq targ d tr).1.job_config.create_disposition
        = CreateDisposition.CREATE_IF_NEEDED)
    ∧ ((DadJoke.store_table env bq targ d tr).1.job_config.schema_update_options
        = SchemaUpdateOption.ALLOW_FIELD_ADDITION)
    ∧ ((DadJoke.store_table env bq targ d tr).1.job_config.schema_update_options
        ≠ SchemaUpdateOption.ALLOW_FIELD_RELAXATION) := by
  have h1 : (DadJoke.store_table env bq targ d tr).1.job_config.write_disposition
      = WriteDisposition.WRITE_APPEND := rfl
  have h2 : (DadJoke.store_table env bq targ d tr).1.job_config.schema_update_options
      = SchemaUpdateOption.ALLOW_FIELD_ADDITION := rfl
  rw [h1, h2]
  exact ⟨rfl, rfl, rfl, by decide, by decide, rfl, rfl, by decide⟩

/-- C4: `JSONLogger.log` (called, as everywhere in this script, without an
explicit `default=` keyword) never raises: it serializes the payload to a
JSON string rendering non-serializable values through the `str` fallback
and forwards the level and that string to the underlying logging sink —
even on payloads where `json.dumps` without a fallback would raise, such
as a bare non-serializable object. -/
theorem jsonlogger_log_never_raises (level : Int) (msg : PyVal) (tr : List Effect) :
    (JSONLogger.log level msg none tr
      = Except.ok (logging_log level (json_dumps_str msg) tr))
    ∧ (∀ r : String,
        json_dumps JsonDefault.dnone (PyVal.obj r)
          = Except.error "TypeError: object is not JSON serializable"
        ∧ JSONLogger.log level (PyVal.obj r) none tr
          = Except.ok (logging_log level (jsonQuote r) tr)) := by
  refine ⟨?_, fun r => ⟨rfl, rfl⟩⟩
  simp [JSONLogger.log, json_dumps_dstr_eq msg]

/-- C5 counterexample: with the extra keyword argument
`default=(lambda o: "X")` and the non-serializable payload `obj "J"`, the
convenience method `info` does NOT behave like `log` with level 20 (it
silently forwards `default=str` instead of the caller's handler), and
`debug` does not behave like `info` either (its inner `self.log(...,
default=str, **kwargs)` call raises a duplicate-keyword `TypeError`).  So
the claim is false as universally quantified over extra arguments. -/
theorem jsonlogger_convenience_kwargs_cex :
    (JSONLogger.info (PyVal.obj "J") (some (JsonDefault.dconst "X")) []
      ≠ JSONLogger.log 20 (PyVal.obj "J") (some (JsonDefault.dconst "X")) [])
    ∧ (JSONLogger.debug (PyVal.obj "J") (some (JsonDefault.dconst "X")) []
      ≠ JSONLogger.info (PyVal.obj "J") (some (JsonDefault.dconst "X")) []) := by
  constructor
  · intro h
    have h2 : jsonQuote "J" = jsonQuote "X" := by
      simpa [JSONLogger.info, JSONLogger.log, json_dumps, logging_log] using h
    exact absurd h2 (by decide)
  · intro h
    simp [JSONLogger.debug, JSONLogger.info, JSONLogger.log, json_dumps] at h

/-- C5 (amended): for every payload, when no explicit `default=` keyword
is supplied each of the five convenience methods behaves identically to
`log` with the level fixed to 10/20/30/40/50 respectively (so they differ
from one another only in level); when an explicit `default=` is supplied,
`info`/`warning`/`error`/`critical` accept and ignore it, always
forwarding the `str` fallback, while `debug` raises a duplicate-keyword
`TypeError`. -/
theorem jsonlogger_convenience_fix_levels (msg : PyVal) (tr : List Effect) :
    (JSONLogger.debug msg none tr = JSONLogger.log 10 msg none tr)
    ∧ (JSONLogger.info msg none tr = JSONLogger.log 20 msg none tr)
    ∧ (JSONLogger.warning msg none tr = JSONLogger.log 30 msg none tr)
    ∧ (JSONLogger.error msg none tr = JSONLogger.log 40 msg none tr)
    ∧ (JSONLogger.critical msg none tr = JSONLogger.log 50 msg none tr)
    ∧ (∀ kw : Option JsonDefault,
        JSONLogger.info msg kw tr = JSONLogger.log 20 msg (some JsonDefault.dstr) tr
        ∧ JSONLogger.warning msg kw tr = JSONLogger.log 30 msg (some JsonDefault.dstr) tr
        ∧ JSONLogger.error msg kw tr = JSONLogger.log 40 msg (some JsonDefault.dstr) tr
        ∧ JSONLogger.critical msg kw tr = JSONLogger.log 50 msg (some JsonDefault.dstr) tr)
    ∧ (∀ dflt : JsonDefault, JSONLogger.debug msg (some dflt) tr
        = Except.error
            (PyErr.typeError "log got multiple values for keyword argument default")) :=
  ⟨rfl, rfl, rfl, rfl, rfl, fun _ => ⟨rfl, rfl, rfl, rfl⟩, fun _ => rfl⟩

/-- C6: for every invocation in which the fetch succeeds with a JSON
object body (store and load, whose failures are external and not modelled,
then also succeed), `__call__` adds to the trace a blob upload, a table
load, and exactly one informational (level-20) log whose payload carries
the elapsed wall-clock duration, a timestamp, the status literal
`COMPLETE`, the blob URI `gs://<bucket>/<uuid>.json` with its self-link,
and the string-rendered load-job result. -/
theorem call_success_info_log (env : Env) (tz : Tz) (w : CallWorld)
    (fields : List (String × PyVal)) (tr : List Effect)
    (h200 : w.fetch.status_code = 200) (hbody : w.fetch.body = PyVal.dict fields) :
    DadJoke.call env w (DadJoke.init tz) tr =
      (Except.ok (),
        DadJoke.with_responses (DadJoke.init tz) [stamped fields w.fetch.time_ns],
        tr ++ [Effect.requested (DadJoke.prepare_get (DadJoke.init tz)),
               Effect.blobUploaded (Blob.mk env.BUCKET (w.uuid ++ ".json")
                 (PyVal.list [stamped fields w.fetch.time_ns]) w.self_link),
               Effect.tableLoaded (LoadRequest.mk [stamped fields w.fetch.time_ns]
                 (pyFStr env.PROJECT_ID ++ "." ++ pyFStr env.DATASET ++ "."
                   ++ pyFStr env.TABLE)
                 (LoadJobConfig.mk SourceFormat.NEWLINE_DELIMITED_JSON true
                   WriteDisposition.WRITE_APPEND CreateDisposition.CREATE_IF_NEEDED
                   SchemaUpdateOption.ALLOW_FIELD_ADDITION) "us"),
               Effect.logged 20 (json_dumps_str (PyVal.dict
                 [ ("executionTime", PyVal.int (w.time_end - w.time_begin)),
                   ("attemptedAt", PyVal.str (isoformat w.now_us tz.offset_minutes)),
                   ("status", PyVal.str "COMPLETE"),
                   ("gcsObject", PyVal.dict
                     [ ("gcsUri", PyVal.str
                         ("gs://" ++ pyFStr env.BUCKET ++ "/" ++ (w.uuid ++ ".json"))),
                       ("gcsSelfLink", PyVal.str w.self_link) ]),
                   ("bigQueryResult",
                     PyVal.str (json_dumps_str (PyVal.dict w.bq_res.vars))) ]))]) := by
  have hget : DadJoke.get env w.fetch (DadJoke.init tz) tr =
      (Except.ok (stamped fields w.fetch.time_ns),
        DadJoke.with_responses (DadJoke.init tz) [stamped fields w.fetch.time_ns],
        tr ++ [Effect.requested (DadJoke.prepare_get (DadJoke.init tz))]) := by
    simp [DadJoke.get, h200, hbody, stamped, DadJoke.init, DadJoke.with_responses]
  rw [DadJoke.call, hget]
  simp [DadJoke.store_object, DadJoke.store_table, JSONLogger.info_run, logging_log,
    DadJoke.timestamp, DadJoke.with_responses, DadJoke.init, pyFalsy]

/-- Witness for C6 at a concrete fully successful invocation. -/
theorem call_success_info_log_witness :
    DadJoke.call sample_env sample_ok_call (DadJoke.init DadJoke.default_tz) [] =
      (Except.ok (),
        DadJoke.with_responses (DadJoke.init DadJoke.default_tz)
          [stamped sample_fields sample_ok_call.fetch.time_ns],
        [] ++ [Effect.requested (DadJoke.prepare_get (DadJoke.init DadJoke.default_tz)),
               Effect.blobUploaded (Blob.mk sample_env.BUCKET
                 (sample_ok_call.uuid ++ ".json")
                 (PyVal.list [stamped sample_fields sample_ok_call.fetch.time_ns])
                 sample_ok_call.self_link),
               Effect.tableLoaded (LoadRequest.mk
                 [stamped sample_fields sample_ok_call.fetch.time_ns]
                 (pyFStr sample_env.PROJECT_ID ++ "." ++ pyFStr sample_env.DATASET ++ "."
                   ++ pyFStr sample_env.TABLE)
                 (LoadJobConfig.mk SourceFormat.NEWLINE_DELIMITED_JSON true
                   WriteDisposition.WRITE_APPEND CreateDisposition.CREATE_IF_NEEDED
                   SchemaUpdateOption.ALLOW_FIELD_ADDITION) "us"),
               Effect.logged 20 (json_dumps_str (PyVal.dict
                 [ ("executionTime", PyVal.int
                     (sample_ok_call.time_end - sample_ok_call.time_begin)),
                   ("attemptedAt", PyVal.str (isoformat sample_ok_call.now_us
                     DadJoke.default_tz.offset_minutes)),
                   ("status", PyVal.str "COMPLETE"),
                   ("gcsObject", PyVal.dict
                     [ ("gcsUri", PyVal.str ("gs://" ++ pyFStr sample_env.BUCKET ++ "/"
                         ++ (sample_ok_call.uuid ++ ".json"))),
                       ("gcsSelfLink", PyVal.str sample_ok_call.self_link) ]),
                   ("bigQueryResult",
                     PyVal.str (json_dumps_str (PyVal.dict sample_ok_call.bq_res.vars))) ]))]) :=
  call_success_info_log sample_env DadJoke.default_tz sample_ok_call
    sample_fields [] (by decide) rfl

/-- C7: the request headers this code sets consist only of
`accept: application/json`; the auth token from the environment is never
attached, and `get` behaves identically under any two values of the
`GFW_AUTHTOKEN` environment variable (indeed it never consults it). -/
theorem fetch_headers_ignore_auth_token (tz : Tz)
    (p b ds t tok1 tok2 : Option String) :
    ((DadJoke.init tz).headers = [("accept", "application/json")])
    ∧ ((DadJoke.init tz).session_headers = [("accept", "application/json")])
    ∧ ((DadJoke.prepare_get (DadJoke.init tz)).headers = [("accept", "application/json")])
    ∧ (∀ (w : FetchWorld) (d : DadJoke) (tr : List Effect),
        DadJoke.get (Env.mk p b ds t tok1) w d tr
          = DadJoke.get (Env.mk p b ds t tok2) w d tr) :=
  ⟨rfl, rfl, rfl, fun _ _ _ => rfl⟩

/-- C8: a falsy argument (`None` or `""`) makes `store_object` fall back
to the configured `BUCKET` and `store_table` fall back to the configured
`<project>.<dataset>.<table>`; the explicit argument takes effect exactly
when it is truthy (a nonempty string). -/
theorem falsy_arg_fallback (env : Env) (uuid self_link : String) (bq : JobResult)
    (d : DadJoke) (tr : List Effect) (s : String) (hs : s ≠ "") :
    ((DadJoke.store_object env uuid self_link none d tr).1.bucket = env.BUCKET)
    ∧ ((DadJoke.store_object env uuid self_link (some "") d tr).1.bucket = env.BUCKET)
    ∧ ((DadJoke.store_object env uuid self_link (some s) d tr).1.bucket = some s)
    ∧ ((DadJoke.store_table env bq none d tr).1.table_id
        = pyFStr env.PROJECT_ID ++ "." ++ pyFStr env.DATASET ++ "." ++ pyFStr env.TABLE)
    ∧ ((DadJoke.store_table env bq (some "") d tr).1.table_id
        = pyFStr env.PROJECT_ID ++ "." ++ pyFStr env.DATASET ++ "." ++ pyFStr env.TABLE)
    ∧ ((DadJoke.store_table env bq (some s) d tr).1.table_id = s) := by
  have hfalse : pyFalsy (some s) = false := by
    cases he : s.isEmpty with
    | false => simp only [pyFalsy]; exact he
    | true => exact absurd ((String.isEmpty_iff s).mp he) hs
  refine ⟨rfl, rfl, ?_, rfl, rfl, ?_⟩
  · simp [DadJoke.store_object, hfalse]
  · simp [DadJoke.store_table, hfalse]

/-- Witness for C8 at the concrete override `"custom"`. -/
theorem falsy_arg_fallback_witness :
    ((DadJoke.store_object sample_env "u" "l" none sample_joker []).1.bucket
        = sample_env.BUCKET)
    ∧ ((DadJoke.store_object sample_env "u" "l" (some "") sample_joker []).1.bucket
        = sample_env.BUCKET)
    ∧ ((DadJoke.store_object sample_env "u" "l" (some "custom") sample_joker []).1.bucket
        = some "custom")
    ∧ ((DadJoke.store_table sample_env sample_bq none sample_joker []).1.table_id
        = pyFStr sample_env.PROJECT_ID ++ "." ++ pyFStr sample_env.DATASET ++ "."
          ++ pyFStr sample_env.TABLE)
    ∧ ((DadJoke.store_table sample_env sample_bq (some "") sample_joker []).1.table_id
        = pyFStr sample_env.PROJECT_ID ++ "." ++ pyFStr sample_env.DATASET ++ "."
          ++ pyFStr sample_env.TABLE)
    ∧ ((DadJoke.store_table sample_env sample_bq (some "custom") sample_joker []).1.table_id
        = "custom") :=
  falsy_arg_fallback sample_env "u" "l" sample_bq sample_joker [] "custom" (by decide)

/-- C9: for every fetch whose status is not 200, `get` raises and leaves
the instance (in particular the response accumulator) unchanged: a failed
fetch appends nothing. -/
theorem get_non200_appends_nothing (env : Env) (w : FetchWorld) (d : DadJoke)
    (tr : List Effect) (h : w.status_code ≠ 200) :
    ((DadJoke.get env w d tr).2.1 = d)
    ∧ ((DadJoke.get env w d tr).2.1.responses = d.responses)
    ∧ (∃ e, (DadJoke.get env w d tr).1 = Except.error e) := by
  have hst : (DadJoke.get env w d tr).2.1 = d := by
    simp [DadJoke.get, h]
  refine ⟨hst, by rw [hst], ?_⟩
  exact ⟨PyErr.httpError
    ("CRITICAL: " ++ toString w.status_code ++ " - please review and retry."),
    by simp [DadJoke.get, h]⟩

/-- Witness for C9 at a concrete HTTP-500 fetch. -/
theorem get_non200_appends_nothing_witness :
    ((DadJoke.get sample_env sample_fail_call.fetch sample_joker []).2.1 = sample_joker)
    ∧ ((DadJoke.get sample_env sample_fail_call.fetch sample_joker []).2.1.responses
        = sample_joker.responses)
    ∧ (∃ e, (DadJoke.get sample_env sample_fail_call.fetch sample_joker []).1
        = Except.error e) :=
  get_non200_appends_nothing sample_env sample_fail_call.fetch sample_joker [] (by decide)

/-- C10: `store_object` and `store_table` read the accumulator (the blob
content is the responses array and the load rows are the responses list)
but leave the instance state, in particular the accumulator, unchanged. -/
theorem store_steps_preserve_accumulator (env : Env) (uuid self_link : String)
    (barg targ : Option String) (bq : JobResult) (d : DadJoke) (tr tr2 : List Effect) :
    ((DadJoke.store_object env uuid self_link barg d tr).2.1 = d)
    ∧ ((DadJoke.store_object env uuid self_link barg d tr).2.1.responses = d.responses)
    ∧ ((DadJoke.store_object env uuid self_link barg d tr).1.content
        = PyVal.list d.responses)
    ∧ ((DadJoke.store_table env bq targ d tr2).2.2.1 = d)
    ∧ ((DadJoke.store_table env bq targ d tr2).2.2.1.responses = d.responses)
    ∧ ((DadJoke.store_table env bq targ d tr2).1.rows = d.responses) :=
  ⟨rfl, rfl, rfl, rfl, rfl, rfl⟩
